import Mathlib

/-!
Verification development for the jsonresume-theme-caffine dynamic
generation pipeline.  The definitions below are a shallow embedding of
the JavaScript sources: the header/contact-strip synthesizer of
export-pdf.js, the first-occurrence style injection, and the
generateResumePDF / generateResumeHTML operations of generate-resume.js
(with the filesystem and the headless engine modelled as explicit
state, and the fallible engine steps driven by a boolean oracle).
-/

/-! ## Data model: resume documents (generate-resume.js, export-pdf.js) -/

/-- A profile entry of the basics.profiles list.  The network field may
be absent (JS: undefined), which the code treats as falsy. -/
structure ProfileEntry where
  network : Option String
  url : String
deriving DecidableEq, Repr

/-- The basics sub-structure.  Every field is optional, mirroring the
schema-free JSON input. -/
structure Basics where
  name : Option String
  phone : Option String
  email : Option String
  profiles : Option (List ProfileEntry)
deriving DecidableEq, Repr

/-- A resume document.  Only the basics field is inspected by the
header synthesizer; the remaining sections are passed through opaquely
to the renderer and are not modelled. -/
structure ResumeDocument where
  basics : Option Basics
deriving DecidableEq, Repr

/-- JS truthiness of an optional string field: undefined and the empty
string are falsy, every other string is truthy. -/
def truthyStr : Option String → Bool
  | none => false
  | some s => s != ""

/-- Character-wise lowercasing, the model of the JS toLowerCase call on
the ASCII network names used here. -/
def jsToLower (s : String) : String := ⟨s.data.map Char.toLower⟩

/-- Embeds the predicate of export-pdf.js line 42/60:
p.network && p.network.toLowerCase() === target. -/
def networkMatches (p : ProfileEntry) (target : String) : Bool :=
  match p.network with
  | none => false
  | some n => (n != "") && (jsToLower n == target)

/-- Embeds basics.profiles.find(p => ...): first matching entry wins. -/
def findNetwork (profiles : List ProfileEntry) (target : String) : Option ProfileEntry :=
  List.find? (fun p => networkMatches p target) profiles

/-! ## Header/contact-strip synthesizer (export-pdf.js lines 37-79,
unnamed part_005 lines 70-98) -/

/-- The divider span emitted between contact segments. -/
def dividerSpan : String := "<span style=\"margin: 0 8px; color: #999;\">|</span>"

/-- The LinkedIn segment of the contact strip (export-pdf.js line 44). -/
def linkedinSegment (url : String) : String :=
  "<span style=\"display: inline;\">🔗 <a href=\"" ++ url ++
    "\" target=\"_blank\" style=\"color: #0066cc; text-decoration: none;\">LinkedIn</a></span>"

/-- The phone segment of the contact strip (export-pdf.js line 50). -/
def phoneSegment (phone : String) : String :=
  "<span style=\"display: inline;\">📞 " ++ phone ++ "</span>"

/-- The email segment of the contact strip (export-pdf.js line 55). -/
def emailSegment (email : String) : String :=
  "<span style=\"display: inline;\">✉ <a href=\"mailto:" ++ email ++
    "\" style=\"color: #0066cc; text-decoration: none;\">" ++ email ++ "</a></span>"

/-- The GitHub segment of the contact strip (export-pdf.js line 62). -/
def githubSegment (url : String) : String :=
  "<span style=\"display: inline;\">💻 <a href=\"" ++ url ++
    "\" target=\"_blank\" style=\"color: #0066cc; text-decoration: none;\">GitHub</a></span>"

/-- Embeds the contactInfo string accumulation of export-pdf.js lines
38-64: LinkedIn (with trailing divider), phone (with trailing
divider), email (no divider), GitHub (with leading divider). -/
def contactInfo (basics : Basics) : String :=
  let s := ""
  let s := match basics.profiles with
    | some profiles =>
      match findNetwork profiles "linkedin" with
      | some linkedin => s ++ linkedinSegment linkedin.url ++ dividerSpan
      | none => s
    | none => s
  let s := match basics.phone with
    | some phone => if phone != "" then s ++ phoneSegment phone ++ dividerSpan else s
    | none => s
  let s := match basics.email with
    | some email => if email != "" then s ++ emailSegment email else s
    | none => s
  let s := match basics.profiles with
    | some profiles =>
      match findNetwork profiles "github" with
      | some github => s ++ dividerSpan ++ githubSegment github.url
      | none => s
    | none => s
  s

/-- The empty basics object, the default of resumeData.basics || {}. -/
def emptyBasics : Basics :=
  { name := none, phone := none, email := none, profiles := none }

/-- Embeds export-pdf.js line 37: const basics = resumeData.basics || {}. -/
def basicsOf (r : ResumeDocument) : Basics := r.basics.getD emptyBasics

/-- Embeds the displayed name of the header template, line 74:
basics.name || empty string. -/
def headerName (basics : Basics) : String := basics.name.getD ""

/-- Embeds the repeating header template of export-pdf.js lines 72-79. -/
def headerTemplate (basics : Basics) : String :=
  "\n        <div style=\"font-size: 10px; text-align: center; width: 100%; padding: 10px 0; border-bottom: 1px solid #e0e0e0; color: #666;\">\n          <h1 style=\"margin: 0 0 8px 0; font-size: 18px; font-weight: 500; color: #333;\">"
    ++ headerName basics ++
    "</h1>\n          <div style=\"font-size: 10px; color: #666;\">\n            "
    ++ contactInfo basics ++
    "\n          </div>\n        </div>\n      "

/-! ## Specification-side view of the contact strip (for claim C1).
These definitions follow the words of the spec, not the code, and are
compared against contactInfo. -/

/-- Follows the spec wording: the ordered list of the present contact
segments in the fixed priority order primary network link, phone,
email, secondary network link. -/
def specContactSegments (basics : Basics) : List String :=
  (match basics.profiles with
   | some profiles =>
     match findNetwork profiles "linkedin" with
     | some linkedin => [linkedinSegment linkedin.url]
     | none => []
   | none => []) ++
  (match basics.phone with
   | some phone => if phone != "" then [phoneSegment phone] else []
   | none => []) ++
  (match basics.email with
   | some email => if email != "" then [emailSegment email] else []
   | none => []) ++
  (match basics.profiles with
   | some profiles =>
     match findNetwork profiles "github" with
     | some github => [githubSegment github.url]
     | none => []
   | none => [])

/-- Follows the spec wording: a visual divider between any two present
segments, never before the first and never after the last. -/
def intercalateDiv : List String → String
  | [] => ""
  | [x] => x
  | x :: y :: xs => x ++ dividerSpan ++ intercalateDiv (y :: xs)

/-! ## First-occurrence style injection (export-pdf.js lines 28-34,
unnamed part_005 lines 62-68): html.replace applied to the literal
pattern <style>, which rewrites only the first occurrence. -/

/-- True when pat occurs at the head of s. -/
def charsMatchAt : List Char → List Char → Bool
  | [], _ => true
  | _ :: _, [] => false
  | p :: ps, c :: cs => (p == c) && charsMatchAt ps cs

/-- JS String.replace with a string pattern on character lists:
replaces the first occurrence of pat by rep, leaves the rest alone. -/
def replaceFirstChars (pat rep : List Char) : List Char → List Char
  | [] => if charsMatchAt pat [] then rep else []
  | c :: cs =>
    if charsMatchAt pat (c :: cs) then rep ++ List.drop pat.length (c :: cs)
    else c :: replaceFirstChars pat rep cs

/-- Index of the first occurrence of pat in s, if any. -/
def firstMatchPos (pat : List Char) : List Char → Option Nat
  | [] => if charsMatchAt pat [] then some 0 else none
  | c :: cs =>
    if charsMatchAt pat (c :: cs) then some 0
    else Option.map (fun n => n + 1) (firstMatchPos pat cs)

/-- JS String.replace with a string pattern, lifted to String. -/
def jsReplaceFirst (s pat rep : String) : String :=
  ⟨replaceFirstChars pat.data rep.data s.data⟩

/-- The search pattern of the style injection. -/
def styleTag : String := "<style>"

/-- The replacement text: the style tag followed by the header
suppression rule (export-pdf.js line 31). -/
def hiddenHeaderRule : String :=
  "<style>\n    .resume-header \x7b display: none !important; \x7d\n"

/-- Embeds export-pdf.js lines 29-32: const htmlWithHiddenHeader =
html.replace(..., ...). -/
def htmlWithHiddenHeader (html : String) : String :=
  jsReplaceFirst html styleTag hiddenHeaderRule

/-! ## Filesystem and engine state for the generate-resume.js pipeline -/

/-- The content of a stored file, abstracted to what the pipeline can
observe: a JSON serialization of a resume document, the JSON text null,
unparseable text, or PDF bytes. -/
inductive FileContent where
  | jsonDoc (r : ResumeDocument)
  | jsonNull
  | badJson
  | pdfBytes
deriving DecidableEq, Repr

/-- A filesystem: a flat map from paths to file contents plus a set of
directories. -/
structure FS where
  files : List (String × FileContent)
  dirs : List String
deriving DecidableEq, Repr

/-- The file stored at path p, if any (fs.readFileSync). -/
def fileAt (fs : FS) (p : String) : Option FileContent :=
  Option.map (fun e => e.2) (List.find? (fun e => e.1 == p) fs.files)

/-- fs.existsSync: true when a file or a directory sits at p. -/
def existsFS (fs : FS) (p : String) : Bool :=
  (fileAt fs p).isSome || fs.dirs.contains p

/-- fs.writeFileSync: create or overwrite the file at p. -/
def writeFS (fs : FS) (p : String) (c : FileContent) : FS :=
  { fs with files := (p, c) :: List.filter (fun e => e.1 != p) fs.files }

/-- fs.unlinkSync: remove the file at p. -/
def unlinkFS (fs : FS) (p : String) : FS :=
  { fs with files := List.filter (fun e => e.1 != p) fs.files }

/-- fs.mkdirSync: record the directory p. -/
def mkdirFS (fs : FS) (p : String) : FS :=
  { fs with dirs := p :: fs.dirs }

/-- The JS value passed as the resume argument: a string, an object, or
one of the primitive values the typeof dispatch has to classify. -/
inductive JSInput where
  | strVal (s : String)
  | objVal (r : ResumeDocument)
  | nullVal
  | boolVal (b : Bool)
  | numVal (n : Int)
  | undefVal
deriving DecidableEq, Repr

/-- The JS typeof operator on the modelled values; typeof null is the
string object. -/
def typeofInput : JSInput → String
  | .strVal _ => "string"
  | .objVal _ => "object"
  | .nullVal => "object"
  | .boolVal _ => "boolean"
  | .numVal _ => "number"
  | .undefVal => "undefined"

/-- The branch taken by the input dispatch of generate-resume.js lines
22-43 and 109-120. -/
inductive InputDispatch where
  | filePathBranch
  | inMemoryBranch
  | rejectedBranch
deriving DecidableEq, Repr

/-- Embeds the typeof dispatch: string input goes to the file-path
branch, object-typed input (including null) to the in-memory branch,
everything else is rejected. -/
def classifyResume (resume : JSInput) : InputDispatch :=
  if typeofInput resume == "string" then .filePathBranch
  else if typeofInput resume == "object" then .inMemoryBranch
  else .rejectedBranch

/-- The error taxonomy of the pipeline. -/
inductive GenError where
  | notFound (p : String)
  | parseError
  | readError
  | invalidInput
  | launchError
  | pageError
  | contentError
  | pdfError
deriving DecidableEq, Repr

/-- The mutable state threaded through one invocation: the filesystem
and whether the headless engine has been launched and released. -/
structure GenState where
  fs : FS
  browserLaunched : Bool
  browserClosed : Bool
deriving DecidableEq, Repr

/-- The environment of one invocation: the Date.now reading, the theme
render function (index.js, opaque here), and an oracle deciding which
engine steps succeed. -/
structure Env where
  timestamp : Nat
  render : JSInput → String
  launchOk : Bool
  newPageOk : Bool
  setContentOk : String → Bool
  pdfOk : Bool

/-- The options record of generateResumePDF; tmpDir is optional and
defaults to /tmp. -/
structure GenOptions where
  resume : JSInput
  outputPath : String
  tmpDir : Option String
deriving Repr

/-- path.join for the directory plus file-name uses of the pipeline. -/
def pathJoin (a b : String) : String := a ++ "/" ++ b

/-- Embeds generate-resume.js lines 31-32: the transient file path
resume_ timestamp .json under the tmp directory. -/
def transientPath (tmpDir : String) (timestamp : Nat) : String :=
  pathJoin tmpDir ("resume_" ++ Nat.repr timestamp ++ ".json")

/-- Split a character list at the separator slash. -/
def splitSlash : List Char → List (List Char)
  | [] => [[]]
  | c :: cs =>
    match splitSlash cs with
    | [] => [[]]
    | seg :: rest => if c == '/' then [] :: seg :: rest else (c :: seg) :: rest

/-- path.dirname: everything before the last separator, or dot. -/
def dirname (p : String) : String :=
  let parts := splitSlash p.data
  if parts.length ≤ 1 then "." else ⟨List.intercalate ['/'] parts.dropLast⟩

/-- JSON.parse applied to a stored file content. -/
def parseFile : FileContent → Except GenError JSInput
  | .jsonDoc r => .ok (.objVal r)
  | .jsonNull => .ok .nullVal
  | .badJson => .error .parseError
  | .pdfBytes => .error .parseError

/-- JSON.stringify of the in-memory resume argument (only object-typed
values reach the serialization). -/
def serializeInput : JSInput → FileContent
  | .objVal r => .jsonDoc r
  | _ => .jsonNull

/-- Embeds generate-resume.js lines 22-43: resolve the resume argument
to canonical data plus a path, materializing a transient file for
in-memory input.  Returns the state reached and the result. -/
def loadResume (env : Env) (resume : JSInput) (tmpDir : String) (st : GenState) :
    GenState × Except GenError (JSInput × String) :=
  match resume with
  | .strVal resumePath =>
    if !(existsFS st.fs resumePath) then (st, .error (.notFound resumePath))
    else
      match fileAt st.fs resumePath with
      | some c =>
        match parseFile c with
        | .ok v => (st, .ok (v, resumePath))
        | .error e => (st, .error e)
      | none => (st, .error .readError)
  | _ =>
    if typeofInput resume == "object" then
      let resumePath := transientPath tmpDir env.timestamp
      let st := if !(existsFS st.fs tmpDir) then { st with fs := mkdirFS st.fs tmpDir } else st
      let st := { st with fs := writeFS st.fs resumePath (serializeInput resume) }
      (st, .ok (resume, resumePath))
    else (st, .error .invalidInput)

/-- Embeds generate-resume.js lines 64-68: create the parent directory
of the output path when it does not exist yet. -/
def ensureOutputDir (fs : FS) (outputPath : String) : FS :=
  let outputDir := dirname outputPath
  if !(existsFS fs outputDir) then mkdirFS fs outputDir else fs

/-- Embeds the full generateResumePDF of generate-resume.js lines
14-98: load the resume, render, launch the engine, open a page, set the
content, ensure the output directory, paginate to PDF, close the
engine, delete the transient file, return the output path.  The catch
clause rethrows, so an error propagates with the state reached at the
failing step. -/
def generateResumePDF (env : Env) (opts : GenOptions) (st : GenState) :
    GenState × Except GenError String :=
  match loadResume env opts.resume (opts.tmpDir.getD "/tmp") st with
  | (st1, .error e) => (st1, .error e)
  | (st1, .ok (resumeData, resumePath)) =>
    let html := env.render resumeData
    if !env.launchOk then (st1, .error .launchError)
    else
      let st2 := { st1 with browserLaunched := true }
      if !env.newPageOk then (st2, .error .pageError)
      else if !(env.setContentOk html) then (st2, .error .contentError)
      else
        let st3 := { st2 with fs := ensureOutputDir st2.fs opts.outputPath }
        if !env.pdfOk then (st3, .error .pdfError)
        else
          let st4 := { st3 with fs := writeFS st3.fs opts.outputPath .pdfBytes }
          let st5 := { st4 with browserClosed := true }
          let st6 :=
            if typeofInput opts.resume == "object" && existsFS st5.fs resumePath then
              { st5 with fs := unlinkFS st5.fs resumePath }
            else st5
          (st6, .ok opts.outputPath)

/-- Embeds generateResumeHTML of generate-resume.js lines 105-127: the
same input dispatch, then the pure render; no filesystem writes. -/
def generateResumeHTML (env : Env) (resume : JSInput) (fs : FS) : Except GenError String :=
  match resume with
  | .strVal p =>
    if !(existsFS fs p) then .error (.notFound p)
    else
      match fileAt fs p with
      | some c =>
        match parseFile c with
        | .ok v => .ok (env.render v)
        | .error e => .error e
      | none => .error .readError
  | _ =>
    if typeofInput resume == "object" then .ok (env.render resume)
    else .error .invalidInput

/-- Whether an operation result is a success. -/
def isOkResult : Except GenError String → Bool
  | .ok _ => true
  | .error _ => false

/-- The error carried by a failed result, if any. -/
def errOf : Except GenError String → Option GenError
  | .ok _ => none
  | .error e => some e

/-- The value carried by a successful result, if any. -/
def okOf : Except GenError String → Option String
  | .ok v => some v
  | .error _ => none

/-! ## Concrete instances used by witnesses and counterexamples -/

/-- Basics with only LinkedIn and GitHub profiles: email and phone
absent. -/
def basicsLinkGit : Basics :=
  { name := none, phone := none, email := none,
    profiles := some [⟨some "LinkedIn", "https://a"⟩, ⟨some "GitHub", "https://b"⟩] }

/-- Basics with phone, email and both profiles present. -/
def basicsFull : Basics :=
  { name := some "Jane Doe", phone := some "123", email := some "jane@doe.io",
    profiles := some [⟨some "LinkedIn", "https://a"⟩, ⟨some "GitHub", "https://b"⟩] }

/-- A small resume document. -/
def docA : ResumeDocument := ⟨some ⟨some "A", none, none, none⟩⟩

/-- A second, different resume document. -/
def docB : ResumeDocument := ⟨some ⟨some "B", none, none, none⟩⟩

/-- An environment in which every engine step succeeds. -/
def envAllOk : Env :=
  { timestamp := 1731000000000, render := fun _ => "<html></html>",
    launchOk := true, newPageOk := true, setContentOk := fun _ => true, pdfOk := true }

/-- An environment in which pagination (page.pdf) fails, after a
successful launch. -/
def envPdfFail : Env :=
  { timestamp := 1731000000000, render := fun _ => "<html></html>",
    launchOk := true, newPageOk := true, setContentOk := fun _ => true, pdfOk := false }

/-- A fresh invocation state: empty filesystem apart from the /tmp
directory, engine neither launched nor released. -/
def st0 : GenState :=
  { fs := { files := [], dirs := ["/tmp"] }, browserLaunched := false, browserClosed := false }

/-- A state whose filesystem holds one parseable resume file. -/
def stWithFile : GenState :=
  { fs := { files := [("/data/resume.json", .jsonDoc docA)], dirs := ["/tmp"] },
    browserLaunched := false, browserClosed := false }

/-! ## Theorems -/

set_option maxRecDepth 10000 in
/-- C1: the claim, as stated, is false: for the basics with only a
LinkedIn and a GitHub profile (email and phone absent) the synthesized
contact strip is not the present segments joined by single dividers; a
doubled divider appears between the two segments. -/
theorem C1_counterexample :
    contactInfo basicsLinkGit ≠ intercalateDiv (specContactSegments basicsLinkGit) := by
  decide

/-- C1 (amended): the contact strip lists the present segments in the
fixed order LinkedIn, phone, email, GitHub, and whenever the email
segment is present the divider appears exactly between adjacent present
segments; when email is absent the code instead leaves a trailing
divider after LinkedIn/phone and a leading divider before GitHub. -/
theorem C1_contact_strip_dividers (b : Basics) (h : truthyStr b.email = true) :
    contactInfo b = intercalateDiv (specContactSegments b) := by
  obtain ⟨e, he, hne⟩ : ∃ e, b.email = some e ∧ (e != "") = true := by
    cases hb : b.email with
    | none => simp [truthyStr, hb] at h
    | some e => exact ⟨e, rfl, by simpa [truthyStr, hb] using h⟩
  cases hp : b.profiles with
  | none =>
    cases hph : b.phone with
    | none =>
      simp [contactInfo, specContactSegments, intercalateDiv, hp, hph, he, hne]
    | some ph =>
      by_cases h2 : (ph != "") = true <;>
        simp [contactInfo, specContactSegments, intercalateDiv, hp, hph, he, hne, h2,
          String.append_assoc, String.empty_append]
  | some profiles =>
    cases hl : findNetwork profiles "linkedin" with
    | none =>
      cases hg : findNetwork profiles "github" with
      | none =>
        cases hph : b.phone with
        | none =>
          simp [contactInfo, specContactSegments, intercalateDiv, hp, hph, he, hne, hl, hg]
        | some ph =>
          by_cases h2 : (ph != "") = true <;>
            simp [contactInfo, specContactSegments, intercalateDiv, hp, hph, he, hne, hl, hg, h2,
              String.append_assoc, String.empty_append]
      | some g =>
        cases hph : b.phone with
        | none =>
          simp [contactInfo, specContactSegments, intercalateDiv, hp, hph, he, hne, hl, hg,
            String.append_assoc, String.empty_append]
        | some ph =>
          by_cases h2 : (ph != "") = true <;>
            simp [contactInfo, specContactSegments, intercalateDiv, hp, hph, he, hne, hl, hg, h2,
              String.append_assoc, String.empty_append]
    | some l =>
      cases hg : findNetwork profiles "github" with
      | none =>
        cases hph : b.phone with
        | none =>
          simp [contactInfo, specContactSegments, intercalateDiv, hp, hph, he, hne, hl, hg,
            String.append_assoc, String.empty_append]
        | some ph =>
          by_cases h2 : (ph != "") = true <;>
            simp [contactInfo, specContactSegments, intercalateDiv, hp, hph, he, hne, hl, hg, h2,
              String.append_assoc, String.empty_append]
      | some g =>
        cases hph : b.phone with
        | none =>
          simp [contactInfo, specContactSegments, intercalateDiv, hp, hph, he, hne, hl, hg,
            String.append_assoc, String.empty_append]
        | some ph =>
          by_cases h2 : (ph != "") = true <;>
            simp [contactInfo, specContactSegments, intercalateDiv, hp, hph, he, hne, hl, hg, h2,
              String.append_assoc, String.empty_append]

set_option maxRecDepth 10000 in
/-- C1 witness: the amended statement at a concrete basics value with
every segment present. -/
theorem C1_contact_strip_dividers_witness :
    contactInfo basicsFull = intercalateDiv (specContactSegments basicsFull) :=
  C1_contact_strip_dividers basicsFull (by decide)

set_option maxRecDepth 10000 in
/-- C3: the profile scan picks the first entry in list order whose
network name matches the target case-insensitively and ignores later
matches; in particular the upper-case LinkedIn entry wins over a later
lower-case duplicate. -/
theorem C3_first_match_wins :
    (∀ (l : List ProfileEntry) (target : String) (p : ProfileEntry),
        findNetwork l target = some p ↔
          networkMatches p target = true ∧
            ∃ as bs, l = as ++ p :: bs ∧ ∀ q ∈ as, networkMatches q target = false)
    ∧ findNetwork [⟨some "LinkedIn", "u1"⟩, ⟨some "linkedin", "u2"⟩] "linkedin"
        = some ⟨some "LinkedIn", "u1"⟩ := by
  constructor
  · intro l target p
    simp [findNetwork, List.find?_eq_some]
  · decide

/-- C7: absent basics (and absent sub-fields) never break the header
synthesis: with no basics the fragment has empty name and empty contact
strip and the template still renders; an absent name defaults to the
empty string and absent phone, email and profiles give the empty
strip. -/
theorem C7_missing_basics_defaults :
    (∀ r : ResumeDocument, r.basics = none →
        headerName (basicsOf r) = "" ∧ contactInfo (basicsOf r) = ""
          ∧ headerTemplate (basicsOf r) = headerTemplate emptyBasics)
    ∧ (∀ b : Basics, b.name = none → headerName b = "")
    ∧ (∀ b : Basics, b.phone = none → b.email = none → b.profiles = none →
        contactInfo b = "") := by
  refine ⟨fun r h => ?_, fun b h => ?_, fun b h1 h2 h3 => ?_⟩
  · simp [basicsOf, h]
    exact ⟨rfl, rfl⟩
  · simp [headerName, h]
  · simp [contactInfo, h1, h2, h3]

/-- C7 witness: the statement at the document with no basics field and
at the empty basics. -/
theorem C7_missing_basics_defaults_witness :
    headerName (basicsOf ⟨none⟩) = "" ∧ contactInfo (basicsOf ⟨none⟩) = ""
      ∧ headerTemplate (basicsOf ⟨none⟩) = headerTemplate emptyBasics :=
  C7_missing_basics_defaults.1 ⟨none⟩ rfl

/-- Helper: when the pattern does not occur, the replacement leaves the
character list unchanged. -/
theorem replaceFirstChars_of_no_match (pat rep : List Char) :
    ∀ s, firstMatchPos pat s = none → replaceFirstChars pat rep s = s := by
  intro s
  induction s with
  | nil =>
    intro h
    unfold firstMatchPos at h
    unfold replaceFirstChars
    split at h
    · exact absurd h (by simp)
    · simp_all
  | cons c cs ih =>
    intro h
    unfold firstMatchPos at h
    unfold replaceFirstChars
    split at h
    · exact absurd h (by simp)
    · rename_i hm
      simp only [Option.map_eq_none'] at h
      simp [hm, ih h]

/-- Helper: when the pattern first occurs at index k, the replacement
rewrites exactly that occurrence and no earlier position matches. -/
theorem replaceFirstChars_of_match (pat rep : List Char) :
    ∀ s k, firstMatchPos pat s = some k →
      replaceFirstChars pat rep s = List.take k s ++ rep ++ List.drop (k + pat.length) s
        ∧ ∀ j, j < k → charsMatchAt pat (List.drop j s) = false := by
  intro s
  induction s with
  | nil =>
    intro k h
    unfold firstMatchPos at h
    split at h
    · rename_i hm
      injection h with h
      subst h
      unfold replaceFirstChars
      simp [hm]
    · exact absurd h (by simp)
  | cons c cs ih =>
    intro k h
    unfold firstMatchPos at h
    split at h
    · rename_i hm
      injection h with h
      subst h
      unfold replaceFirstChars
      simp [hm]
    · rename_i hm
      obtain ⟨k1, hk1, rfl⟩ : ∃ k1, firstMatchPos pat cs = some k1 ∧ k1 + 1 = k := by
        cases hx : firstMatchPos pat cs with
        | none => simp [hx] at h
        | some k1 => exact ⟨k1, rfl, by simpa [hx] using h⟩
      obtain ⟨ih1, ih2⟩ := ih k1 hk1
      constructor
      · unfold replaceFirstChars
        simp only [hm, if_false, Bool.false_eq_true, ite_false, ih1]
        have harr : k1 + 1 + pat.length = (k1 + pat.length) + 1 := by omega
        simp [harr, List.take_succ_cons, List.drop_succ_cons]
      · intro j hj
        cases j with
        | zero => simpa using hm
        | succ j1 =>
          simp only [List.drop_succ_cons]
          exact ih2 j1 (by omega)

/-- C10: the style injection rewrites only the first occurrence of the
style tag, inserting the header suppression rule right after it, and an
HTML document with no style tag passes through unchanged. -/
theorem C10_first_style_occurrence :
    hiddenHeaderRule = styleTag ++ "\n    .resume-header \x7b display: none !important; \x7d\n"
    ∧ (∀ html : String, firstMatchPos styleTag.data html.data = none →
        htmlWithHiddenHeader html = html)
    ∧ (∀ (html : String) (k : Nat), firstMatchPos styleTag.data html.data = some k →
        (htmlWithHiddenHeader html).data
            = List.take k html.data ++ hiddenHeaderRule.data
                ++ List.drop (k + styleTag.data.length) html.data
          ∧ ∀ j, j < k → charsMatchAt styleTag.data (List.drop j html.data) = false) := by
  refine ⟨rfl, fun html h => ?_, fun html k h => ?_⟩
  · show jsReplaceFirst html styleTag hiddenHeaderRule = html
    unfold jsReplaceFirst
    rw [replaceFirstChars_of_no_match _ _ _ h]
  · exact replaceFirstChars_of_match _ _ _ _ h

set_option maxRecDepth 10000 in
/-- C10 witness: a document with two style tags keeps the second one
untouched, and a document without a style tag is unchanged. -/
theorem C10_first_style_occurrence_witness :
    htmlWithHiddenHeader "<body></body>" = "<body></body>"
    ∧ (htmlWithHiddenHeader "<html><style>a</style><style>b</style>").data
        = List.take 6 "<html><style>a</style><style>b</style>".data ++ hiddenHeaderRule.data
            ++ List.drop (6 + styleTag.data.length) "<html><style>a</style><style>b</style>".data :=
  ⟨C10_first_style_occurrence.2.1 "<body></body>" (by decide),
   (C10_first_style_occurrence.2.2 "<html><style>a</style><style>b</style>" 6 (by decide)).1⟩

/-- Helper: loading a resume never touches the engine flags. -/
theorem loadResume_browser (env : Env) (r : JSInput) (d : String) (st : GenState) :
    (loadResume env r d st).1.browserLaunched = st.browserLaunched
      ∧ (loadResume env r d st).1.browserClosed = st.browserClosed := by
  unfold loadResume
  cases r <;> dsimp only
  all_goals repeat' split
  all_goals exact ⟨rfl, rfl⟩

/-- Helper: computation rule of the loader on an in-memory object. -/
theorem loadResume_objVal (env : Env) (r : ResumeDocument) (d : String) (st : GenState) :
    loadResume env (.objVal r) d st =
      (let st1 := if !(existsFS st.fs d) then { st with fs := mkdirFS st.fs d } else st
       ({ st1 with fs := writeFS st1.fs (transientPath d env.timestamp) (.jsonDoc r) },
        .ok (.objVal r, transientPath d env.timestamp))) := rfl

/-- Helper: the loader leaves the state untouched on a file path. -/
theorem loadResume_strVal_state (env : Env) (p : String) (d : String) (st : GenState) :
    (loadResume env (.strVal p) d st).1 = st := by
  unfold loadResume
  dsimp only
  repeat' split
  all_goals rfl

/-- Helper: a write stores the file at the written path. -/
theorem fileAt_writeFS_self (fs : FS) (p : String) (c : FileContent) :
    fileAt (writeFS fs p c) p = some c := by
  simp [fileAt, writeFS, List.find?]

/-- Helper: filtering out entries at one key does not change the lookup
of another key. -/
theorem find?_filter_ne (p q : String) (hq : q ≠ p) (l : List (String × FileContent)) :
    List.find? (fun e => e.1 == q) (List.filter (fun e => e.1 != p) l)
      = List.find? (fun e => e.1 == q) l := by
  induction l with
  | nil => rfl
  | cons e l ih =>
    by_cases he : e.1 = p
    · have h1 : (e.1 != p) = false := by simp [he]
      have h2 : (e.1 == q) = false := by simp [he]; exact fun h => hq h.symm
      simp [List.filter_cons, h1, List.find?_cons, h2, ih]
    · have h1 : (e.1 != p) = true := by simp [he]
      by_cases h2 : e.1 = q
      · have h3 : (e.1 == q) = true := by simp [h2]
        simp [List.filter_cons, h1, List.find?_cons, h3]
      · simp only [List.filter_cons, h1, if_true]
        have h3 : (e.1 == q) = false := by simp [h2]
        simp [List.find?_cons, h3, ih]

/-- Helper: a write at a different path does not change a lookup. -/
theorem fileAt_writeFS_ne (fs : FS) (p q : String) (c : FileContent) (hq : q ≠ p) :
    fileAt (writeFS fs p c) q = fileAt fs q := by
  have h1 : (p == q) = false := by simp; exact fun h => hq h.symm
  simp only [fileAt, writeFS, List.find?_cons, h1]
  rw [find?_filter_ne p q hq]

/-- Helper: after an unlink the path holds no file. -/
theorem fileAt_unlinkFS_self (fs : FS) (p : String) :
    fileAt (unlinkFS fs p) p = none := by
  simp only [fileAt, unlinkFS, Option.map_eq_none']
  rw [List.find?_eq_none]
  intro e he
  have := (List.mem_filter.mp he).2
  simp only [bne_iff_ne, ne_eq] at this
  simp [this]

/-- Helper: mkdir changes no file. -/
theorem fileAt_mkdirFS (fs : FS) (d q : String) :
    fileAt (mkdirFS fs d) q = fileAt fs q := rfl

/-- Helper: ensuring the output directory changes no file. -/
theorem fileAt_ensureOutputDir (fs : FS) (o q : String) :
    fileAt (ensureOutputDir fs o) q = fileAt fs q := by
  unfold ensureOutputDir
  dsimp only
  split <;> rfl

/-- Helper: a write preserves the presence of every file. -/
theorem fileAt_writeFS_isSome (fs : FS) (p q : String) (c : FileContent)
    (h : (fileAt fs q).isSome = true) :
    (fileAt (writeFS fs p c) q).isSome = true := by
  by_cases hq : q = p
  · subst hq; rw [fileAt_writeFS_self]; rfl
  · rw [fileAt_writeFS_ne fs p q c hq]; exact h

/-- Helper: a present file makes existsSync true. -/
theorem existsFS_of_isSome (fs : FS) (q : String) (h : (fileAt fs q).isSome = true) :
    existsFS fs q = true := by
  simp [existsFS, h]

/-- C2 (amended): the engine instance is released exactly on the
success path: starting from a fresh state, the final state records the
engine as closed precisely when the operation succeeds; on any failure
after launch the instance is leaked. -/
theorem C2_browser_closed_iff_success (env : Env) (opts : GenOptions) (st : GenState)
    (hfresh : st.browserClosed = false) :
    (generateResumePDF env opts st).1.browserClosed
      = isOkResult (generateResumePDF env opts st).2 := by
  unfold generateResumePDF
  cases h : loadResume env opts.resume (opts.tmpDir.getD "/tmp") st with
  | mk st1 res =>
    have hc : st1.browserClosed = false := by
      have := (loadResume_browser env opts.resume (opts.tmpDir.getD "/tmp") st).2
      rw [h] at this
      exact this.trans hfresh
    cases res with
    | error e => simp [isOkResult, hc]
    | ok v =>
      cases v with
      | mk resumeData resumePath =>
        dsimp only
        repeat' split
        all_goals simp [isOkResult, hc]

set_option maxRecDepth 100000 in
/-- C2: the claim, as stated, is false: a run whose pagination step
fails after a successful launch propagates the error with the engine
still open (launched and never closed). -/
theorem C2_counterexample :
    errOf (generateResumePDF envPdfFail ⟨.objVal docA, "/out/a.pdf", none⟩ st0).2
        = some .pdfError
    ∧ (generateResumePDF envPdfFail ⟨.objVal docA, "/out/a.pdf", none⟩ st0).1.browserLaunched
        = true
    ∧ (generateResumePDF envPdfFail ⟨.objVal docA, "/out/a.pdf", none⟩ st0).1.browserClosed
        = false := by
  decide

set_option maxRecDepth 100000 in
/-- C2 witness: the amended statement at a concrete successful run. -/
theorem C2_browser_closed_iff_success_witness :
    (generateResumePDF envAllOk ⟨.objVal docA, "/out/a.pdf", none⟩ st0).1.browserClosed
      = isOkResult (generateResumePDF envAllOk ⟨.objVal docA, "/out/a.pdf", none⟩ st0).2 :=
  C2_browser_closed_iff_success envAllOk ⟨.objVal docA, "/out/a.pdf", none⟩ st0 rfl

/-- C9: the typeof dispatch classifies null as an object: the loader
accepts null down the in-memory branch (materializing a transient
file) instead of rejecting it, and the HTML operation renders it; the
invalid-input rejection is never raised for null. -/
theorem C9_null_goes_in_memory :
    classifyResume .nullVal = .inMemoryBranch
    ∧ (∀ (env : Env) (d : String) (st : GenState),
        (loadResume env .nullVal d st).2 = .ok (.nullVal, transientPath d env.timestamp))
    ∧ (∀ (env : Env) (fs : FS),
        generateResumeHTML env .nullVal fs = .ok (env.render .nullVal)) := by
  refine ⟨rfl, fun env d st => ?_, fun env fs => rfl⟩
  unfold loadResume
  dsimp only
  split
  · rfl
  · rename_i hty
    exact absurd rfl hty

/-- C8: a successful PDF generation resolves to exactly the requested
output path, and the directory-ensure step guarantees that the parent
directory of the output path exists before the PDF bytes are written
(the write happens on the ensured filesystem). -/
theorem C8_output_path_and_directory :
    (∀ (fs : FS) (p : String), existsFS (ensureOutputDir fs p) (dirname p) = true)
    ∧ (∀ (env : Env) (opts : GenOptions) (st : GenState) (out : String),
        (generateResumePDF env opts st).2 = .ok out → out = opts.outputPath) := by
  constructor
  · intro fs p
    unfold ensureOutputDir
    dsimp only
    split
    · simp [existsFS, mkdirFS, List.contains]
    · rename_i hcond
      simp only [Bool.not_eq_true'] at hcond
      simpa using hcond
  · intro env opts st out h
    unfold generateResumePDF at h
    cases hl : loadResume env opts.resume (opts.tmpDir.getD "/tmp") st with
    | mk st1 res =>
      rw [hl] at h
      cases res with
      | error e => simp at h
      | ok v =>
        cases v with
        | mk resumeData resumePath =>
          dsimp only at h
          repeat' split at h
          all_goals simp_all

/-- C6: on a file-path input that does not exist, both operations fail
with the NotFound error and the state (filesystem included) is exactly
the initial one: no destination file and no transient file appear. -/
theorem C6_missing_input_not_found (env : Env) (opts : GenOptions) (st : GenState) (p : String)
    (hr : opts.resume = .strVal p) (hex : existsFS st.fs p = false) :
    generateResumePDF env opts st = (st, .error (.notFound p))
    ∧ generateResumeHTML env (.strVal p) st.fs = .error (.notFound p) := by
  have h1 : loadResume env (.strVal p) (opts.tmpDir.getD "/tmp") st
      = (st, .error (.notFound p)) := by
    simp [loadResume, hex]
  constructor
  · unfold generateResumePDF
    rw [hr, h1]
  · simp [generateResumeHTML, hex]

set_option maxRecDepth 100000 in
/-- C6 witness: the statement at a fresh state with no file at the
missing path. -/
theorem C6_missing_input_not_found_witness :
    generateResumePDF envAllOk ⟨.strVal "/missing.json", "/out/a.pdf", none⟩ st0
        = (st0, .error (.notFound "/missing.json"))
    ∧ generateResumeHTML envAllOk (.strVal "/missing.json") st0.fs
        = .error (.notFound "/missing.json") :=
  C6_missing_input_not_found envAllOk ⟨.strVal "/missing.json", "/out/a.pdf", none⟩ st0
    "/missing.json" rfl (by decide)

/-- C5 (amended): the transient file name is a function of the
temporary directory and the millisecond timestamp alone: the loader
materializes an in-memory object at exactly transientPath, so two
invocations that observe the same Date.now value with the same
temporary directory generate the same (colliding) name. -/
theorem C5_transient_name_timestamp_only :
    (∀ (env : Env) (r : ResumeDocument) (d : String) (st : GenState),
        (loadResume env (.objVal r) d st).2 = .ok (.objVal r, transientPath d env.timestamp))
    ∧ (∀ (env1 env2 : Env) (opts1 opts2 : GenOptions),
        env1.timestamp = env2.timestamp → opts1.tmpDir = opts2.tmpDir →
        transientPath (opts1.tmpDir.getD "/tmp") env1.timestamp
          = transientPath (opts2.tmpDir.getD "/tmp") env2.timestamp) := by
  constructor
  · intro env r d st
    rw [loadResume_objVal]
  · intro env1 env2 opts1 opts2 ht hd
    rw [ht, hd]

set_option maxRecDepth 100000 in
/-- C5 witness: the amended statement at two concrete invocations with
equal timestamps. -/
theorem C5_transient_name_timestamp_only_witness :
    transientPath ((⟨.objVal docA, "/out/a.pdf", none⟩ : GenOptions).tmpDir.getD "/tmp")
        envPdfFail.timestamp
      = transientPath ((⟨.objVal docB, "/out/b.pdf", none⟩ : GenOptions).tmpDir.getD "/tmp")
        envAllOk.timestamp :=
  C5_transient_name_timestamp_only.2 envPdfFail envAllOk
    ⟨.objVal docA, "/out/a.pdf", none⟩ ⟨.objVal docB, "/out/b.pdf", none⟩ rfl rfl

set_option maxRecDepth 100000 in
/-- C5: the claim, as stated, is false: two distinct invocations (with
different resume objects) that observe the same Date.now reading write
their transient files to the same path under the shared temporary
directory: the names collide. -/
theorem C5_counterexample :
    docA ≠ docB
    ∧ fileAt (generateResumePDF envPdfFail ⟨.objVal docA, "/out/a.pdf", none⟩ st0).1.fs
        (transientPath "/tmp" 1731000000000) = some (.jsonDoc docA)
    ∧ fileAt (generateResumePDF envPdfFail ⟨.objVal docB, "/out/b.pdf", none⟩ st0).1.fs
        (transientPath "/tmp" 1731000000000) = some (.jsonDoc docB) := by
  decide

/-- Helper: a write makes existsSync true at the written path. -/
theorem existsFS_writeFS_self (fs : FS) (p : String) (c : FileContent) :
    existsFS (writeFS fs p c) p = true := by
  simp [existsFS, fileAt_writeFS_self]

/-- Helper: a write preserves existsSync everywhere. -/
theorem existsFS_writeFS_mono (fs : FS) (p q : String) (c : FileContent)
    (h : existsFS fs q = true) :
    existsFS (writeFS fs p c) q = true := by
  simp only [existsFS, Bool.or_eq_true] at h ⊢
  rcases h with h | h
  · exact Or.inl (fileAt_writeFS_isSome fs p q c h)
  · exact Or.inr h

/-- Helper: ensuring the output directory preserves existsSync. -/
theorem existsFS_ensureOutputDir_mono (fs : FS) (o q : String)
    (h : existsFS fs q = true) :
    existsFS (ensureOutputDir fs o) q = true := by
  unfold ensureOutputDir
  dsimp only
  split
  · simp only [existsFS, mkdirFS, Bool.or_eq_true] at h ⊢
    rcases h with h | h
    · exact Or.inl h
    · refine Or.inr ?_
      simp only [List.contains_cons]
      rw [h]
      simp
  · exact h

/-- C4: after a successful export from an in-memory object, the
transient JSON file under the configured temporary directory no longer
exists; and with a file-path input no file is ever deleted (every file
present initially is present finally). -/
theorem C4_transient_cleanup :
    (∀ (env : Env) (opts : GenOptions) (st : GenState) (r : ResumeDocument),
        opts.resume = .objVal r →
        isOkResult (generateResumePDF env opts st).2 = true →
        fileAt (generateResumePDF env opts st).1.fs
          (transientPath (opts.tmpDir.getD "/tmp") env.timestamp) = none)
    ∧ (∀ (env : Env) (opts : GenOptions) (st : GenState) (p q : String),
        opts.resume = .strVal p →
        (fileAt st.fs q).isSome = true →
        (fileAt (generateResumePDF env opts st).1.fs q).isSome = true) := by
  constructor
  · intro env opts st r hr hok
    unfold generateResumePDF at hok ⊢
    rw [hr] at hok ⊢
    rw [loadResume_objVal] at hok ⊢
    dsimp only at hok ⊢
    repeat' split
    all_goals try (exfalso; simp only [*] at hok; simp [isOkResult] at hok; done)
    all_goals try dsimp only
    all_goals first
      | simp only [fileAt_unlinkFS_self]
      | (rename_i hcond
         exfalso
         apply hcond
         dsimp only [typeofInput]
         rw [beq_self_eq_true]
         rw [Bool.true_and]
         exact existsFS_writeFS_mono _ _ _ _
           (existsFS_ensureOutputDir_mono _ _ _ (existsFS_writeFS_self _ _ _)))
  · intro env opts st p q hr hq
    unfold generateResumePDF
    rw [hr]
    cases hl : loadResume env (.strVal p) (opts.tmpDir.getD "/tmp") st with
    | mk st1 res =>
      have hst1 : st1 = st := by
        have := loadResume_strVal_state env p (opts.tmpDir.getD "/tmp") st
        rw [hl] at this
        exact this
      subst hst1
      cases res with
      | error e => exact hq
      | ok v =>
        cases v with
        | mk resumeData resumePath =>
          dsimp only
          repeat' split
          all_goals try dsimp only
          all_goals try exact hq
          all_goals try (rw [fileAt_ensureOutputDir]; exact hq)
          all_goals try (exfalso; rename_i habs; simp [typeofInput] at habs; done)
          all_goals exact fileAt_writeFS_isSome _ _ _ _ (by rw [fileAt_ensureOutputDir]; exact hq)

set_option maxRecDepth 100000 in
/-- C4 witness: the cleanup statement at a concrete successful
in-memory run, and file preservation at a concrete file-path run. -/
theorem C4_transient_cleanup_witness :
    fileAt (generateResumePDF envAllOk ⟨.objVal docA, "/out/a.pdf", none⟩ st0).1.fs
        (transientPath "/tmp" envAllOk.timestamp) = none
    ∧ (fileAt (generateResumePDF envAllOk
          ⟨.strVal "/data/resume.json", "/out/a.pdf", none⟩ stWithFile).1.fs
        "/data/resume.json").isSome = true :=
  ⟨C4_transient_cleanup.1 envAllOk ⟨.objVal docA, "/out/a.pdf", none⟩ st0 docA rfl (by decide),
   C4_transient_cleanup.2 envAllOk ⟨.strVal "/data/resume.json", "/out/a.pdf", none⟩ stWithFile
     "/data/resume.json" "/data/resume.json" rfl (by decide)⟩

set_option maxRecDepth 100000 in
/-- C8 witness: a concrete successful run resolves to its output path,
and the ensure step at a concrete filesystem. -/
theorem C8_output_path_and_directory_witness :
    existsFS (ensureOutputDir st0.fs "/out/a.pdf") (dirname "/out/a.pdf") = true
    ∧ "/out/a.pdf" =
        (⟨JSInput.objVal docA, "/out/a.pdf", none⟩ : GenOptions).outputPath :=
  ⟨C8_output_path_and_directory.1 st0.fs "/out/a.pdf",
   C8_output_path_and_directory.2 envAllOk ⟨.objVal docA, "/out/a.pdf", none⟩ st0
     "/out/a.pdf" rfl⟩
